import Mathlib

/-!
Verification of the karapace core against its specification.

The Python sources under scrutiny are:
  * `karapace/schema_reader.py`   — the log-replay state machine,
  * `karapace/compatibility/__init__.py` — the compatibility policy engine,
  * `karapace/backup/api.py`      — backup format identification and the
    partition consumer discipline,
  * `karapace/auth.py`            — ACL authorization checks.

Python dictionaries are embedded as insertion-ordered association lists,
exceptions as `Except`, and external capabilities (JSON validity, the Avro
and JSON-Schema checkers, regex matching) as explicit function parameters.
-/

/-! ## Association lists (the shallow embedding of Python `dict`) -/

/-- Lookup in an insertion-ordered association list (`d[k]` / `d.get(k)`). -/
def alistLookup {K V : Type} [DecidableEq K] (l : List (K × V)) (k : K) : Option V :=
  match l with
  | [] => none
  | p :: rest => if p.1 = k then some p.2 else alistLookup rest k

/-- Membership test (`k in d`). -/
def alistContains {K V : Type} [DecidableEq K] (l : List (K × V)) (k : K) : Bool :=
  (alistLookup l k).isSome

/-- Insertion (`d[k] = v`): replaces in place, appends when the key is new. -/
def alistInsert {K V : Type} [DecidableEq K] (l : List (K × V)) (k : K) (v : V) :
    List (K × V) :=
  match l with
  | [] => [(k, v)]
  | p :: rest => if p.1 = k then (k, v) :: rest else p :: alistInsert rest k v

/-- Removal (`d.pop(k, None)`). -/
def alistErase {K V : Type} [DecidableEq K] (l : List (K × V)) (k : K) : List (K × V) :=
  match l with
  | [] => []
  | p :: rest => if p.1 = k then rest else p :: alistErase rest k

theorem alistInsert_all {K V : Type} [DecidableEq K] (P : K × V → Bool)
    (l : List (K × V)) (k : K) (v : V)
    (hl : l.all P = true) (hkv : P (k, v) = true) :
    (alistInsert l k v).all P = true := by
  induction l with
  | nil => simp [alistInsert, hkv]
  | cons p rest ih =>
      simp only [List.all_cons, Bool.and_eq_true] at hl
      by_cases h : p.1 = k
      · simp [alistInsert, h, hkv, hl.2]
      · simp [alistInsert, h, hl.1, ih hl.2]

/-! ## Data model of the log-replay state machine (`schema_reader.py`) -/

/-- Embedding of `karapace.schema_models.SchemaType`. -/
inductive SchemaType where
  | AVRO
  | JSONSCHEMA
  | PROTOBUF
deriving DecidableEq

/-- Embedding of `karapace.schema_models.TypedSchema`, restricted to the fields the reader
constructs (`schema_type`, `schema_str`); the parsed representation is opaque
to the reader. -/
structure TypedSchema where
  schema_type : SchemaType
  schema_str : String
deriving DecidableEq

/-- Evaluation of `SchemaType(s)` for the strings the reader passes ("AVRO", "JSON",
"PROTOBUF"). -/
def schemaTypeOfString (s : String) : SchemaType :=
  if s = "JSON" then SchemaType.JSONSCHEMA
  else if s = "PROTOBUF" then SchemaType.PROTOBUF
  else SchemaType.AVRO

/-- One entry of a subject's `schemas` dict:
`{"schema": ..., "version": ..., "id": ..., "deleted": ...}`. -/
structure SchemaVersionEntry where
  schema : TypedSchema
  version : Nat
  id : Nat
  deleted : Bool
deriving DecidableEq

/-- One value of `self.subjects`: `compatibility` is `none` when the key is
absent from the dict, `schemas` maps version to entry. -/
structure SubjectData where
  compatibility : Option String
  schemas : List (Nat × SchemaVersionEntry)
deriving DecidableEq

/-- The mutable state of `KafkaSchemaReader` touched by replay:
`subjects`, `schemas` (by id), `global_schema_id`, `offset`, and the
`config["compatibility"]` cell written by global CONFIG records. -/
structure ReaderState where
  subjects : List (String × SubjectData)
  schemas : List (Nat × TypedSchema)
  global_schema_id : Nat
  offset : Nat
  config_compatibility : Option String
deriving DecidableEq

/-- The reader's state right after `__init__`. -/
def initState : ReaderState :=
  { subjects := [], schemas := [], global_schema_id := 0, offset := 0,
    config_compatibility := none }

/-- Decoded JSON key of a log record. `subject = none` models the key being
absent (or JSON null, which `handle_msg` treats identically where it tests
for it). -/
structure MsgKey where
  keytype : String
  subject : Option String
  version : Option Nat
deriving DecidableEq

/-- Decoded JSON value of a log record, one variant per keytype payload
(section 6 of the spec); JSON `null` is modelled by `Option.none` at the
call sites. -/
inductive MsgValue where
  | config (compatibilityLevel : String)
  | schemaValue (subject : String) (version : Nat) (id : Nat) (schema : String)
      (schemaType : Option String) (deleted : Option Bool)
  | deleteSubjectValue (subject : String) (version : Nat)
deriving DecidableEq

/-- Python exceptions that `handle_msg` can raise. -/
inductive PyErr where
  | keyError
  | typeError
  | unboundLocalError
deriving DecidableEq

/-- Embedding of `KafkaSchemaReader._delete_schema_below_version`. -/
def delete_schema_below_version (schema : SchemaVersionEntry) (version : Nat) :
    SchemaVersionEntry :=
  if schema.version ≤ version then { schema with deleted := true } else schema

/-- The tail of the SCHEMA branch of `handle_msg` (schema_reader.py lines
242-277), entered once `typed_schema` has been constructed: creation of a new
subject, soft deletion, or insertion of a new version.  Note that the
`deleted` branch with an absent version inserts into `schemas` without
touching `global_schema_id`. -/
def applySchemaValue (st : ReaderState) (subject : String) (version id : Nat)
    (typed : TypedSchema) (deleted : Bool) : ReaderState :=
  match alistLookup st.subjects subject with
  | none =>
      let entry : SchemaVersionEntry :=
        { schema := typed, version := version, id := id, deleted := deleted }
      let sd : SubjectData := { compatibility := none, schemas := [(version, entry)] }
      { st with
        subjects := alistInsert st.subjects subject sd,
        schemas := alistInsert st.schemas id typed,
        global_schema_id :=
          if id > st.global_schema_id then id else st.global_schema_id }
  | some sd =>
      if deleted then
        match alistLookup sd.schemas version with
        | none =>
            { st with schemas := alistInsert st.schemas id typed }
        | some entry =>
            let entry2 := { entry with deleted := true }
            let sd2 := { sd with schemas := alistInsert sd.schemas version entry2 }
            { st with subjects := alistInsert st.subjects subject sd2 }
      else
        let entry : SchemaVersionEntry :=
          { schema := typed, version := version, id := id, deleted := deleted }
        let sd2 := { sd with schemas := alistInsert sd.schemas version entry }
        { st with
          subjects := alistInsert st.subjects subject sd2,
          schemas := alistInsert st.schemas id typed,
          global_schema_id :=
            if id > st.global_schema_id then id else st.global_schema_id }

/-- The CONFIG branch of `handle_msg` with a subject and a non-null value
(schema_reader.py lines 206-213): ensure the subject exists, then set its
compatibility. -/
def setSubjectCompatibility (st : ReaderState) (subj lvl : String) :
    Except PyErr ReaderState :=
  let subjects1 :=
    if alistContains st.subjects subj then st.subjects
    else alistInsert st.subjects subj { compatibility := none, schemas := [] }
  match alistLookup subjects1 subj with
  | some sd =>
      Except.ok { st with subjects := alistInsert subjects1 subj { sd with compatibility := some lvl } }
  | none => Except.error PyErr.keyError

/-- Embedding of `KafkaSchemaReader.handle_msg`.  `jsonOk` embeds `ujson.loads` succeeding
on a schema string.  Errors model the Python exceptions escaping the method;
every error leaves the state as it was (no branch mutates before raising). -/
def handle_msg (jsonOk : String → Bool) (st : ReaderState) (key : MsgKey)
    (value : Option MsgValue) : Except PyErr ReaderState :=
  if key.keytype = "CONFIG" then
    match key.subject with
    | some subj =>
        match value with
        | none =>
            -- self.subjects[key["subject"]].pop("compatibility", None)
            match alistLookup st.subjects subj with
            | none => Except.error PyErr.keyError
            | some sd =>
                Except.ok { st with subjects := alistInsert st.subjects subj { sd with compatibility := none } }
        | some (MsgValue.config lvl) => setSubjectCompatibility st subj lvl
        | some _ =>
            -- value["compatibilityLevel"] on a non-CONFIG payload
            Except.error PyErr.keyError
    | none =>
        match value with
        | some (MsgValue.config lvl) =>
            Except.ok { st with config_compatibility := some lvl }
        | some _ => Except.error PyErr.keyError
        | none => Except.error PyErr.typeError
  else if key.keytype = "SCHEMA" then
    match value with
    | none =>
        -- tombstone: delete the (subject, version) entry
        match key.subject, key.version with
        | some subject, some version =>
            match alistLookup st.subjects subject with
            | none => Except.ok st   -- logged: subject did not exist
            | some sd =>
                match alistLookup sd.schemas version with
                | none => Except.ok st   -- logged: version did not exist
                | some _ =>
                    Except.ok { st with subjects := alistInsert st.subjects subject { sd with schemas := alistErase sd.schemas version } }
        | _, _ => Except.error PyErr.keyError
    | some (MsgValue.schemaValue subject version id schemaStr schemaType deleted) =>
        -- schema_type = value.get("schemaType", "AVRO")
        if schemaType.getD "AVRO" = "AVRO" ∨ schemaType.getD "AVRO" = "JSON" then
          if jsonOk schemaStr then
            Except.ok (applySchemaValue st subject version id
              { schema_type := schemaTypeOfString (schemaType.getD "AVRO"), schema_str := schemaStr }
              (deleted.getD false))
          else Except.ok st   -- invalid json: logged and skipped
        else if schemaType.getD "AVRO" = "PROTOBUF" then
          Except.ok (applySchemaValue st subject version id
            { schema_type := SchemaType.PROTOBUF, schema_str := schemaStr }
            (deleted.getD false))
        else
          -- missing `return` in the source: `typed_schema` is referenced
          -- while unbound on the next line
          Except.error PyErr.unboundLocalError
    | some _ =>
        -- value["schema"] on a payload without the field
        Except.error PyErr.keyError
  else if key.keytype = "DELETE_SUBJECT" then
    match value with
    | some (MsgValue.deleteSubjectValue subject version) =>
        match alistLookup st.subjects subject with
        | none => Except.ok st   -- logged: subject did not exist
        | some sd =>
            Except.ok { st with subjects := alistInsert st.subjects subject { sd with schemas := sd.schemas.map (fun p => (p.1, delete_schema_below_version p.2 version)) } }
    | some _ => Except.error PyErr.keyError
    | none => Except.error PyErr.typeError
  else
    Except.ok st   -- NOOP and unrecognized keytypes

/-- Apply a sequence of decoded records; stops at the first raised exception,
returning the state reached so far together with the exception. -/
def applyAll (jsonOk : String → Bool) (st : ReaderState) :
    List (MsgKey × Option MsgValue) → ReaderState × Option PyErr
  | [] => (st, none)
  | m :: rest =>
      match handle_msg jsonOk st m.1 m.2 with
      | Except.ok st2 => applyAll jsonOk st2 rest
      | Except.error e => (st, some e)

/-! ## The poll loop of `handle_messages` (`schema_reader.py` lines 176-197) -/

/-- Outcome of decoding `msg.key` with `ujson.loads`. -/
inductive RawKey where
  | invalidJson
  | parsed (k : MsgKey)

/-- Outcome of `msg.value`: falsy (`None`), undecodable bytes, or decoded
JSON. -/
inductive RawValue where
  | absent
  | invalidJson
  | parsed (v : MsgValue)

/-- One polled consumer record. -/
structure RawMsg where
  key : RawKey
  value : RawValue
  offset : Nat

/-- The per-record body of `KafkaSchemaReader.handle_messages`: records whose
key or value fails to decode are skipped with `continue` — in particular
`self.offset` is NOT advanced for them; for handled records the offset is set
to the record's offset.  An exception from `handle_msg` aborts the batch. -/
def handleMessages (jsonOk : String → Bool) (st : ReaderState) :
    List RawMsg → ReaderState × Option PyErr
  | [] => (st, none)
  | m :: rest =>
      match m.key with
      | RawKey.invalidJson => handleMessages jsonOk st rest
      | RawKey.parsed key =>
          match m.value with
          | RawValue.invalidJson => handleMessages jsonOk st rest
          | RawValue.absent =>
              match handle_msg jsonOk st key none with
              | Except.ok st2 => handleMessages jsonOk { st2 with offset := m.offset } rest
              | Except.error e => (st, some e)
          | RawValue.parsed v =>
              match handle_msg jsonOk st key (some v) with
              | Except.ok st2 => handleMessages jsonOk { st2 with offset := m.offset } rest
              | Except.error e => (st, some e)

/-! ## The id invariant (claim C2) -/

/-- Invariant `global_schema_id ≥ max(id for id in schemas_by_id)`, stated over all
keys of the `schemas` dict. -/
def idInvariant (st : ReaderState) : Bool :=
  st.schemas.all (fun p => p.1 ≤ st.global_schema_id)

/-- Detects the branch of `handle_msg` (schema_reader.py lines 259-262) that
inserts into `schemas` without bumping `global_schema_id`: a SCHEMA record
with `deleted = true` for an existing subject whose version is not yet
present. -/
def deletedInsertBranch (st : ReaderState) (key : MsgKey) (value : Option MsgValue) :
    Bool :=
  key.keytype = "SCHEMA" &&
    match value with
    | some (MsgValue.schemaValue subject version _ _ _ deleted) =>
        (match alistLookup st.subjects subject with
         | none => false
         | some sd => deleted.getD false && !(alistContains sd.schemas version))
    | _ => false

/-- A run avoids the `deleted`-insert branch when no applied record takes it
(records after a raised exception are never applied). -/
def runAvoidsDeletedInsert (jsonOk : String → Bool) (st : ReaderState) :
    List (MsgKey × Option MsgValue) → Bool
  | [] => true
  | m :: rest =>
      !deletedInsertBranch st m.1 m.2 &&
        match handle_msg jsonOk st m.1 m.2 with
        | Except.ok st2 => runAvoidsDeletedInsert jsonOk st2 rest
        | Except.error _ => true

theorem le_trans_all (l : List (Nat × TypedSchema)) (a b : Nat)
    (h : l.all (fun p => p.1 ≤ a) = true) (hab : a ≤ b) :
    l.all (fun p => p.1 ≤ b) = true := by
  rw [List.all_eq_true] at h ⊢
  intro x hx
  have := h x hx
  simp only [decide_eq_true_eq] at this ⊢
  exact le_trans this hab

theorem applySchemaValue_idInvariant (st : ReaderState) (subject : String)
    (version id : Nat) (typed : TypedSchema) (deleted : Bool)
    (hinv : idInvariant st = true)
    (hbr : ∀ sd, alistLookup st.subjects subject = some sd → deleted = true →
        alistContains sd.schemas version = true) :
    idInvariant (applySchemaValue st subject version id typed deleted) = true := by
  unfold applySchemaValue
  have hgsi : st.global_schema_id ≤ if id > st.global_schema_id then id
      else st.global_schema_id := by
    split
    · omega
    · exact le_refl _
  have hid : id ≤ if id > st.global_schema_id then id else st.global_schema_id := by
    split
    · exact le_refl _
    · omega
  cases hsub : alistLookup st.subjects subject with
  | none =>
      simp only [idInvariant] at hinv ⊢
      exact alistInsert_all _ _ _ _ (le_trans_all _ _ _ hinv hgsi)
        (by simpa using hid)
  | some sd =>
      cases hdel : deleted with
      | false =>
          simp only [hdel, Bool.false_eq_true, if_false, idInvariant] at hinv ⊢
          exact alistInsert_all _ _ _ _ (le_trans_all _ _ _ hinv hgsi)
            (by simpa using hid)
      | true =>
          simp only [hdel, if_true, idInvariant] at hinv ⊢
          cases hver : alistLookup sd.schemas version with
          | none =>
              exfalso
              have hc := hbr sd hsub hdel
              simp [alistContains, hver] at hc
          | some entry =>
              simpa using hinv

theorem setSubjectCompatibility_idInvariant (st : ReaderState) (subj lvl : String)
    (st' : ReaderState) (hinv : idInvariant st = true)
    (h : setSubjectCompatibility st subj lvl = Except.ok st') :
    idInvariant st' = true := by
  unfold setSubjectCompatibility at h
  simp only [] at h
  split at h
  · cases h
    simpa [idInvariant] using hinv
  · exact Except.noConfusion h

theorem handle_msg_idInvariant (jsonOk : String → Bool) (st : ReaderState)
    (key : MsgKey) (value : Option MsgValue) (st' : ReaderState)
    (hinv : idInvariant st = true)
    (hbr : deletedInsertBranch st key value = false)
    (h : handle_msg jsonOk st key value = Except.ok st') :
    idInvariant st' = true := by
  unfold handle_msg at h
  repeat' split at h
  all_goals first
    | exact Except.noConfusion h
    | (cases h; simpa [idInvariant] using hinv)
    | exact setSubjectCompatibility_idInvariant _ _ _ _ hinv h
    | (cases h;
       apply applySchemaValue_idInvariant _ _ _ _ _ _ hinv;
       intro sd hsub hdel;
       unfold deletedInsertBranch at hbr;
       rw [show key.keytype = "SCHEMA" from by assumption] at hbr;
       simp only [hsub, hdel] at hbr;
       simpa using hbr)

/-! ## Claims C1-C4 -/

/-- C1 (code divergence): a record whose key JSON is invalid, and a record
whose value JSON is invalid, are both skipped without failing replay — but
`self.offset` is NOT advanced to their offsets (it stays at its initial 0,
not 7 or 8), because the `continue` in `handle_messages` precedes the
`self.offset = msg.offset` assignment. -/
theorem c1_skipped_record_offset_not_advanced :
    handleMessages (fun _ => true) initState
      [{ key := RawKey.invalidJson, value := RawValue.absent, offset := 7 },
       { key := RawKey.parsed { keytype := "NOOP", subject := none, version := none },
         value := RawValue.invalidJson, offset := 8 }] = (initState, none) := by
  rfl

/-- C2 (counterexample): applying a SCHEMA record for a new subject with id 1
and then a SCHEMA record with `deleted = true`, a fresh version, and id 5
leaves `global_schema_id = 1` while id 5 is a key of `schemas`: the claimed
invariant `global_schema_id ≥ max(id in schemas_by_id)` is violated, with no
exception raised. -/
theorem c2_id_invariant_counterexample :
    (applyAll (fun _ => true) initState
      [({ keytype := "SCHEMA", subject := some "s", version := some 1 },
        some (MsgValue.schemaValue "s" 1 1 "0" none none)),
       ({ keytype := "SCHEMA", subject := some "s", version := some 2 },
        some (MsgValue.schemaValue "s" 2 5 "0" none (some true)))]).2 = none ∧
    (applyAll (fun _ => true) initState
      [({ keytype := "SCHEMA", subject := some "s", version := some 1 },
        some (MsgValue.schemaValue "s" 1 1 "0" none none)),
       ({ keytype := "SCHEMA", subject := some "s", version := some 2 },
        some (MsgValue.schemaValue "s" 2 5 "0" none (some true)))]).1.global_schema_id = 1 ∧
    alistContains (applyAll (fun _ => true) initState
      [({ keytype := "SCHEMA", subject := some "s", version := some 1 },
        some (MsgValue.schemaValue "s" 1 1 "0" none none)),
       ({ keytype := "SCHEMA", subject := some "s", version := some 2 },
        some (MsgValue.schemaValue "s" 2 5 "0" none (some true)))]).1.schemas 5 = true ∧
    idInvariant (applyAll (fun _ => true) initState
      [({ keytype := "SCHEMA", subject := some "s", version := some 1 },
        some (MsgValue.schemaValue "s" 1 1 "0" none none)),
       ({ keytype := "SCHEMA", subject := some "s", version := some 2 },
        some (MsgValue.schemaValue "s" 2 5 "0" none (some true)))]).1 = false := by
  refine ⟨rfl, rfl, rfl, rfl⟩

/-- C2 (amended): `global_schema_id ≥ max(id for id in schemas_by_id)` holds
after every sequence of applied records, provided no applied record takes the
branch for a SCHEMA record with `deleted = true` whose version is absent from
an existing subject (that branch inserts into `schemas_by_id` without bumping
`global_schema_id`). -/
theorem c2_id_invariant_amended (jsonOk : String → Bool) (st : ReaderState)
    (msgs : List (MsgKey × Option MsgValue))
    (hinv : idInvariant st = true)
    (havoid : runAvoidsDeletedInsert jsonOk st msgs = true) :
    idInvariant (applyAll jsonOk st msgs).1 = true := by
  induction msgs generalizing st with
  | nil => simpa [applyAll] using hinv
  | cons m rest ih =>
      unfold runAvoidsDeletedInsert at havoid
      rw [Bool.and_eq_true] at havoid
      unfold applyAll
      cases hm : handle_msg jsonOk st m.1 m.2 with
      | ok st2 =>
          rw [hm] at havoid
          refine ih st2 ?_ havoid.2
          refine handle_msg_idInvariant jsonOk st m.1 m.2 st2 hinv ?_ hm
          simpa using havoid.1
      | error e => simpa using hinv

/-- C2 (amended) at a concrete input: a new subject with id 1 followed by a
non-deleted new version with id 5. -/
theorem c2_id_invariant_amended_witness :
    idInvariant (applyAll (fun _ => true) initState
      [({ keytype := "SCHEMA", subject := some "s", version := some 1 },
        some (MsgValue.schemaValue "s" 1 1 "0" none none)),
       ({ keytype := "SCHEMA", subject := some "s", version := some 2 },
        some (MsgValue.schemaValue "s" 2 5 "0" none (some false)))]).1 = true := by
  exact c2_id_invariant_amended (fun _ => true) initState _ (by rfl) (by rfl)

/-- C3 (counterexample): a CONFIG record with a subject and a null value,
when the subject is not in the registry, raises `KeyError` from
`self.subjects[key["subject"]]` instead of being ignored. -/
theorem c3_config_null_counterexample :
    handle_msg (fun _ => true) initState
      { keytype := "CONFIG", subject := some "s", version := none } none =
      Except.error PyErr.keyError := by
  rfl

/-- C3 (amended): a CONFIG record with a subject and a null value removes the
compatibility setting when the subject exists; when the subject does not
exist, `handle_msg` raises `KeyError` (the reader loop catches it, so the
process continues, but the record is not silently ignored). -/
theorem c3_config_null_amended :
    (∀ (jsonOk : String → Bool) (st : ReaderState) (subj : String) (sd : SubjectData),
      alistLookup st.subjects subj = some sd →
      handle_msg jsonOk st { keytype := "CONFIG", subject := some subj, version := none }
        none =
        Except.ok { st with subjects := alistInsert st.subjects subj { sd with compatibility := none } }) ∧
    (∀ (jsonOk : String → Bool) (st : ReaderState) (subj : String),
      alistLookup st.subjects subj = none →
      handle_msg jsonOk st { keytype := "CONFIG", subject := some subj, version := none }
        none =
        Except.error PyErr.keyError) := by
  constructor
  · intro jsonOk st subj sd hl
    simp [handle_msg, hl]
  · intro jsonOk st subj hl
    simp [handle_msg, hl]

/-- C3 (amended) at concrete inputs: removal for an existing subject, and
`KeyError` for a missing one. -/
theorem c3_config_null_amended_witness :
    handle_msg (fun _ => true)
      { initState with subjects := [("s", { compatibility := some "FULL", schemas := [] })] }
      { keytype := "CONFIG", subject := some "s", version := none } none =
      Except.ok { initState with subjects := [("s", { compatibility := none, schemas := [] })] } ∧
    handle_msg (fun _ => true) initState
      { keytype := "CONFIG", subject := some "s", version := none } none =
      Except.error PyErr.keyError := by
  exact ⟨c3_config_null_amended.1 (fun _ => true)
      { initState with subjects := [("s", { compatibility := some "FULL", schemas := [] })] }
      "s" { compatibility := some "FULL", schemas := [] } rfl,
    c3_config_null_amended.2 (fun _ => true) initState "s" rfl⟩

/-- C4 (code divergence): a SCHEMA record with unknown schemaType "THRIFT" is
logged but, because the branch is missing a `return`, the next statement
references the unbound local `typed_schema` and raises `UnboundLocalError`;
the registry state is unchanged, but replay does raise. -/
theorem c4_unknown_schema_type_raises :
    applyAll (fun _ => true) initState
      [({ keytype := "SCHEMA", subject := some "s", version := some 1 },
        some (MsgValue.schemaValue "s" 1 1 "0" (some "THRIFT") none))] =
      (initState, some PyErr.unboundLocalError) := by
  rfl

/-! ## Compatibility engine (`compatibility/__init__.py`)

The result type and its constructors live in `karapace.avro_compatibility`,
outside the replicated sources; they are modelled from the spec. -/

/-- Modelled from the spec: verdict of a compatibility check
(`SchemaCompatibilityType` in `karapace.avro_compatibility`). -/
inductive SchemaCompatibilityType where
  | compatible
  | incompatible
deriving DecidableEq

/-- Modelled from the spec: the kinds of incompatibility the checkers report
(`SchemaIncompatibilityType`); only the members the replicated sources name
are included. -/
inductive SchemaIncompatibilityType where
  | missing_enum_symbols
  | type_mismatch
  | name_mismatch
  | fixed_size_mismatch
deriving DecidableEq

/-- Modelled from the spec: `SchemaCompatibilityResult`, a verdict together
with the incompatibilities, messages and locations accumulated so far. -/
structure SchemaCompatibilityResult where
  compatibility : SchemaCompatibilityType
  incompatibilities : List SchemaIncompatibilityType
  messages : List String
  locations : List String
deriving DecidableEq

/-- Modelled from the spec: `SchemaCompatibilityResult.compatible()`. -/
def SchemaCompatibilityResult.compatible : SchemaCompatibilityResult :=
  { compatibility := SchemaCompatibilityType.compatible, incompatibilities := [],
    messages := [], locations := [] }

/-- Modelled from the spec: `SchemaCompatibilityResult.incompatible(...)`,
a result carrying one incompatibility with its message and location. -/
def SchemaCompatibilityResult.incompatible (incompat_type : SchemaIncompatibilityType)
    (message : String) (location : List String) : SchemaCompatibilityResult :=
  { compatibility := SchemaCompatibilityType.incompatible,
    incompatibilities := [incompat_type], messages := [message],
    locations := location }

/-- Modelled from the spec: `merge` is compatible iff both operands are
compatible; otherwise the concatenation of incompatibilities (and of the
accumulated messages and locations). -/
def SchemaCompatibilityResult.merged_with (a b : SchemaCompatibilityResult) :
    SchemaCompatibilityResult :=
  { compatibility :=
      if a.compatibility = SchemaCompatibilityType.compatible ∧
         b.compatibility = SchemaCompatibilityType.compatible
      then SchemaCompatibilityType.compatible
      else SchemaCompatibilityType.incompatible,
    incompatibilities := a.incompatibilities ++ b.incompatibilities,
    messages := a.messages ++ b.messages,
    locations := a.locations ++ b.locations }

namespace Compat

/-- Embedding of `CompatibilityModes` (compatibility/__init__.py lines 23-40). -/
inductive CompatibilityModes where
  | BACKWARD
  | BACKWARD_TRANSITIVE
  | FORWARD
  | FORWARD_TRANSITIVE
  | FULL
  | FULL_TRANSITIVE
  | NONE
deriving DecidableEq

/-- Embedding of `CompatibilityModes.is_transitive`. -/
def CompatibilityModes.is_transitive (m : CompatibilityModes) : Bool :=
  match m with
  | CompatibilityModes.BACKWARD_TRANSITIVE => true
  | CompatibilityModes.FORWARD_TRANSITIVE => true
  | CompatibilityModes.FULL_TRANSITIVE => true
  | _ => false

/-- The compat module's view of a `TypedSchema`: its kind and its parsed
representation `schema` (of abstract type `α`, produced by the injected
parser). -/
structure TypedSchema (α : Type) where
  schema_type : SchemaType
  schema : α

/-- Embedding of `check_avro_compatibility` (lines 51-59).  The external
`AvroChecker().get_compatibility` is the parameter `get_compatibility`.
An incompatible verdict whose incompatibility list is exactly
`[missing_enum_symbols]` is downgraded to compatible. -/
def check_avro_compatibility {α : Type}
    (get_compatibility : α → α → SchemaCompatibilityResult)
    (reader_schema writer_schema : α) : SchemaCompatibilityResult :=
  if (get_compatibility reader_schema writer_schema).compatibility =
        SchemaCompatibilityType.incompatible ∧
      [SchemaIncompatibilityType.missing_enum_symbols] ≠
        (get_compatibility reader_schema writer_schema).incompatibilities
  then get_compatibility reader_schema writer_schema
  else SchemaCompatibilityResult.compatible

/-- Embedding of `check_jsonschema_compatibility` (lines 62-63): a direct delegation to
the external `jsonschema_compatibility`. -/
def check_jsonschema_compatibility {α : Type}
    (jsonschema_compatibility : α → α → SchemaCompatibilityResult)
    (reader writer : α) : SchemaCompatibilityResult :=
  jsonschema_compatibility reader writer

/-- Textual form of a schema kind as Python string-formats the enum member. -/
def schemaTypeText (t : SchemaType) : String :=
  match t with
  | SchemaType.AVRO => "SchemaType.AVRO"
  | SchemaType.JSONSCHEMA => "SchemaType.JSONSCHEMA"
  | SchemaType.PROTOBUF => "SchemaType.PROTOBUF"

/-- The message of the type-mismatch result for schemas of differing kinds. -/
def typeMismatchMessage (a b : SchemaType) : String :=
  "Comparing different schema types: " ++ schemaTypeText a ++ " with " ++ schemaTypeText b

/-- Embedding of `check_compatibility` (lines 66-138).  The two external checkers are the
parameters `avro_get` (`AvroChecker().get_compatibility`) and `json_get`
(`jsonschema_compatibility`); `α` is the parsed-schema type.  The kind
mismatch test precedes the NONE test, exactly as in the source. -/
def check_compatibility {α : Type}
    (avro_get json_get : α → α → SchemaCompatibilityResult)
    (old_schema new_schema : TypedSchema α)
    (compatibility_mode : CompatibilityModes) : SchemaCompatibilityResult :=
  if old_schema.schema_type ≠ new_schema.schema_type then
    SchemaCompatibilityResult.incompatible SchemaIncompatibilityType.type_mismatch
      (typeMismatchMessage old_schema.schema_type new_schema.schema_type) []
  else if compatibility_mode = CompatibilityModes.NONE then
    SchemaCompatibilityResult.compatible
  else
    match old_schema.schema_type with
    | SchemaType.AVRO =>
        match compatibility_mode with
        | CompatibilityModes.BACKWARD | CompatibilityModes.BACKWARD_TRANSITIVE =>
            check_avro_compatibility avro_get new_schema.schema old_schema.schema
        | CompatibilityModes.FORWARD | CompatibilityModes.FORWARD_TRANSITIVE =>
            check_avro_compatibility avro_get old_schema.schema new_schema.schema
        | _ =>
            -- FULL and FULL_TRANSITIVE (NONE cannot reach this point)
            (check_avro_compatibility avro_get new_schema.schema old_schema.schema).merged_with
              (check_avro_compatibility avro_get old_schema.schema new_schema.schema)
    | SchemaType.JSONSCHEMA =>
        match compatibility_mode with
        | CompatibilityModes.BACKWARD | CompatibilityModes.BACKWARD_TRANSITIVE =>
            check_jsonschema_compatibility json_get new_schema.schema old_schema.schema
        | CompatibilityModes.FORWARD | CompatibilityModes.FORWARD_TRANSITIVE =>
            check_jsonschema_compatibility json_get old_schema.schema new_schema.schema
        | _ =>
            (check_jsonschema_compatibility json_get new_schema.schema old_schema.schema).merged_with
              (check_jsonschema_compatibility json_get old_schema.schema new_schema.schema)
    | SchemaType.PROTOBUF =>
        -- the final else branch of the source
        SchemaCompatibilityResult.incompatible SchemaIncompatibilityType.type_mismatch
          ("Unknow schema_type " ++ schemaTypeText old_schema.schema_type) []

end Compat

/-! ## Claims C5-C7 -/

/-- C5: `check_avro_compatibility(reader, writer)` returns a compatible result
whenever the underlying checker's verdict is compatible, and whenever the
verdict is incompatible with incompatibilities exactly
`[missing_enum_symbols]`; any other incompatible verdict is returned
unchanged. -/
theorem c5_check_avro_downgrade {α : Type}
    (get_compatibility : α → α → SchemaCompatibilityResult) (reader writer : α) :
    ((get_compatibility reader writer).compatibility =
        SchemaCompatibilityType.compatible →
      Compat.check_avro_compatibility get_compatibility reader writer =
        SchemaCompatibilityResult.compatible) ∧
    ((get_compatibility reader writer).compatibility =
        SchemaCompatibilityType.incompatible →
      (get_compatibility reader writer).incompatibilities =
        [SchemaIncompatibilityType.missing_enum_symbols] →
      Compat.check_avro_compatibility get_compatibility reader writer =
        SchemaCompatibilityResult.compatible) ∧
    ((get_compatibility reader writer).compatibility =
        SchemaCompatibilityType.incompatible →
      (get_compatibility reader writer).incompatibilities ≠
        [SchemaIncompatibilityType.missing_enum_symbols] →
      Compat.check_avro_compatibility get_compatibility reader writer =
        get_compatibility reader writer) := by
  refine ⟨?_, ?_, ?_⟩
  · intro h1
    unfold Compat.check_avro_compatibility
    rw [if_neg]
    rintro ⟨hc, -⟩
    rw [h1] at hc
    exact SchemaCompatibilityType.noConfusion hc
  · intro h1 h2
    unfold Compat.check_avro_compatibility
    rw [if_neg]
    rintro ⟨-, hne⟩
    exact hne h2.symm
  · intro h1 h2
    unfold Compat.check_avro_compatibility
    rw [if_pos ⟨h1, fun he => h2 he.symm⟩]

/-- C5 at concrete inputs: one checker per case of the claim. -/
theorem c5_check_avro_downgrade_witness :
    Compat.check_avro_compatibility
        (fun _ _ : Nat => SchemaCompatibilityResult.compatible) 0 0 =
      SchemaCompatibilityResult.compatible ∧
    Compat.check_avro_compatibility
        (fun _ _ : Nat =>
          { compatibility := SchemaCompatibilityType.incompatible,
            incompatibilities := [SchemaIncompatibilityType.missing_enum_symbols],
            messages := ["m"], locations := [] }) 0 0 =
      SchemaCompatibilityResult.compatible ∧
    Compat.check_avro_compatibility
        (fun _ _ : Nat => SchemaCompatibilityResult.incompatible
          SchemaIncompatibilityType.name_mismatch "n" []) 0 0 =
      SchemaCompatibilityResult.incompatible SchemaIncompatibilityType.name_mismatch
        "n" [] := by
  refine ⟨(c5_check_avro_downgrade _ 0 0).1 rfl,
    (c5_check_avro_downgrade _ 0 0).2.1 rfl rfl,
    (c5_check_avro_downgrade _ 0 0).2.2 rfl (by decide)⟩

/-- C6 (counterexample): for schemas of differing kinds, FULL returns a
single type-mismatch result, while the merge of the BACKWARD and FORWARD
results concatenates two type-mismatch entries — the two are not equal. -/
theorem c6_full_merge_counterexample :
    Compat.check_compatibility (fun _ _ : Nat => SchemaCompatibilityResult.compatible)
        (fun _ _ : Nat => SchemaCompatibilityResult.compatible)
        { schema_type := SchemaType.AVRO, schema := 0 }
        { schema_type := SchemaType.JSONSCHEMA, schema := 0 }
        Compat.CompatibilityModes.FULL ≠
      (Compat.check_compatibility (fun _ _ : Nat => SchemaCompatibilityResult.compatible)
          (fun _ _ : Nat => SchemaCompatibilityResult.compatible)
          { schema_type := SchemaType.AVRO, schema := 0 }
          { schema_type := SchemaType.JSONSCHEMA, schema := 0 }
          Compat.CompatibilityModes.BACKWARD).merged_with
        (Compat.check_compatibility (fun _ _ : Nat => SchemaCompatibilityResult.compatible)
          (fun _ _ : Nat => SchemaCompatibilityResult.compatible)
          { schema_type := SchemaType.AVRO, schema := 0 }
          { schema_type := SchemaType.JSONSCHEMA, schema := 0 }
          Compat.CompatibilityModes.FORWARD) := by
  decide

/-- C6 (amended): for schemas of the same kind, and that kind AVRO or JSON
Schema, `check_compatibility(a, b, FULL)` equals the merge of the BACKWARD
and FORWARD results; when the kinds differ (or are PROTOBUF) both sides are
incompatible but the merge duplicates the type-mismatch entry, so they are
not equal. -/
theorem c6_full_is_merge_amended {α : Type}
    (avro_get json_get : α → α → SchemaCompatibilityResult)
    (a b : Compat.TypedSchema α)
    (hty : a.schema_type = b.schema_type)
    (hkind : a.schema_type = SchemaType.AVRO ∨ a.schema_type = SchemaType.JSONSCHEMA) :
    Compat.check_compatibility avro_get json_get a b Compat.CompatibilityModes.FULL =
      (Compat.check_compatibility avro_get json_get a b
          Compat.CompatibilityModes.BACKWARD).merged_with
        (Compat.check_compatibility avro_get json_get a b
          Compat.CompatibilityModes.FORWARD) := by
  rcases hkind with h | h <;>
    · have hb := hty.symm.trans h
      simp [Compat.check_compatibility, h, hb]

/-- C6 (amended) at a concrete input: two AVRO schemas. -/
theorem c6_full_is_merge_amended_witness :
    Compat.check_compatibility (fun _ _ : Nat => SchemaCompatibilityResult.compatible)
        (fun _ _ : Nat => SchemaCompatibilityResult.compatible)
        { schema_type := SchemaType.AVRO, schema := 0 }
        { schema_type := SchemaType.AVRO, schema := 1 }
        Compat.CompatibilityModes.FULL =
      (Compat.check_compatibility (fun _ _ : Nat => SchemaCompatibilityResult.compatible)
          (fun _ _ : Nat => SchemaCompatibilityResult.compatible)
          { schema_type := SchemaType.AVRO, schema := 0 }
          { schema_type := SchemaType.AVRO, schema := 1 }
          Compat.CompatibilityModes.BACKWARD).merged_with
        (Compat.check_compatibility (fun _ _ : Nat => SchemaCompatibilityResult.compatible)
          (fun _ _ : Nat => SchemaCompatibilityResult.compatible)
          { schema_type := SchemaType.AVRO, schema := 0 }
          { schema_type := SchemaType.AVRO, schema := 1 }
          Compat.CompatibilityModes.FORWARD) := by
  exact c6_full_is_merge_amended _ _ _ _ rfl (Or.inl rfl)

/-- C7 (counterexample): with mode NONE but schemas of differing kinds, the
kind check precedes the NONE check and the result is incompatible. -/
theorem c7_none_counterexample :
    (Compat.check_compatibility (fun _ _ : Nat => SchemaCompatibilityResult.compatible)
      (fun _ _ : Nat => SchemaCompatibilityResult.compatible)
      { schema_type := SchemaType.AVRO, schema := 0 }
      { schema_type := SchemaType.JSONSCHEMA, schema := 0 }
      Compat.CompatibilityModes.NONE).compatibility =
      SchemaCompatibilityType.incompatible := by
  decide

/-- C7 (amended): `check_compatibility(old, new, NONE)` is compatible
whenever old and new have the same schema kind; for differing kinds it
returns the type-mismatch result even under NONE. -/
theorem c7_none_amended {α : Type}
    (avro_get json_get : α → α → SchemaCompatibilityResult)
    (old_schema new_schema : Compat.TypedSchema α)
    (hty : old_schema.schema_type = new_schema.schema_type) :
    Compat.check_compatibility avro_get json_get old_schema new_schema
      Compat.CompatibilityModes.NONE = SchemaCompatibilityResult.compatible := by
  simp [Compat.check_compatibility, hty]

/-- C7 (amended) at a concrete input: two PROTOBUF schemas under NONE. -/
theorem c7_none_amended_witness :
    Compat.check_compatibility (fun _ _ : Nat => SchemaCompatibilityResult.compatible)
      (fun _ _ : Nat => SchemaCompatibilityResult.compatible)
      { schema_type := SchemaType.PROTOBUF, schema := 0 }
      { schema_type := SchemaType.PROTOBUF, schema := 1 }
      Compat.CompatibilityModes.NONE = SchemaCompatibilityResult.compatible := by
  exact c7_none_amended _ _ _ _ rfl

/-! ## Backup format identification and consumer discipline (`backup/api.py`) -/

/-- Embedding of `BackupVersion` (backup/api.py lines 47-51). -/
inductive BackupVersion where
  | ANONYMIZE_AVRO
  | V1
  | V2
  | V3
deriving DecidableEq

/-- Embedding of `BackupVersion.identify` (lines 53-61): read the first 4 bytes of the
file, compare against the V3 and then the V2 marker, defaulting to V1.  The
marker byte strings live outside the replicated sources and are passed as
parameters; a file is a byte list and `fp.read(4)` is `List.take 4`. -/
def BackupVersion.identify (v3_marker v2_marker : List Nat) (file : List Nat) :
    BackupVersion :=
  if file.take 4 = v3_marker then BackupVersion.V3
  else if file.take 4 = v2_marker then BackupVersion.V2
  else BackupVersion.V1

/-- Embedding of `kafka.structs.TopicPartition`, as carried by `StaleConsumerError`. -/
structure TopicPartition where
  topic : String
  partition : Nat
deriving DecidableEq

/-- Result of `_consume_records` (backup/api.py lines 222-252) on a stream of
polls.  The raised exceptions become constructors; `outOfPolls` is the model
artifact for exhausting the finite poll stream while the loop would continue. -/
inductive ConsumeOutcome where
  | emptyPartition
  | staleConsumerError (tp : TopicPartition) (start_offset end_offset last_offset : Nat)
      (poll_timeout : Nat)
  | done (yielded : List Nat)
  | outOfPolls (yielded : List Nat)
deriving DecidableEq

/-- The `while True` loop of `_consume_records`: each poll yields the list of
record offsets; an empty poll raises `StaleConsumerError` carrying the
current `last_offset`; otherwise `last_offset` becomes the offset of the last
record of the poll and the loop ends once it reaches `end_offset`. -/
def consumeLoop (tp : TopicPartition) (poll_timeout : Nat)
    (start_offset end_offset : Nat) (last_offset : Nat) (acc : List Nat) :
    List (List Nat) → ConsumeOutcome
  | [] => ConsumeOutcome.outOfPolls acc
  | records :: rest =>
      if records.length = 0 then
        ConsumeOutcome.staleConsumerError tp start_offset end_offset last_offset
          poll_timeout
      else if records.getLastD last_offset ≥ end_offset then
        ConsumeOutcome.done (acc ++ records)
      else
        consumeLoop tp poll_timeout start_offset end_offset
          (records.getLastD last_offset) (acc ++ records) rest

/-- Embedding of `_consume_records`: `end_offset` is taken as the high watermark; an empty
range raises `EmptyPartition`, then the watermark is decremented to the
actual end offset and the poll loop runs. -/
def consume_records (tp : TopicPartition) (poll_timeout : Nat)
    (start_offset end_offset : Nat) (polls : List (List Nat)) : ConsumeOutcome :=
  if start_offset ≥ end_offset then ConsumeOutcome.emptyPartition
  else consumeLoop tp poll_timeout start_offset (end_offset - 1) start_offset [] polls

/-- The value of the loop's `last_offset` after consuming the given polls:
the offset of the last record of the last non-empty poll, or the initial
value when no poll happened. -/
def lastPolledOffset (last_offset : Nat) : List (List Nat) → Nat
  | [] => last_offset
  | records :: rest => lastPolledOffset (records.getLastD last_offset) rest

theorem consumeLoop_stale (tp : TopicPartition) (poll_timeout : Nat)
    (start_offset end_offset : Nat) (ps rest : List (List Nat))
    (last_offset : Nat) (acc : List Nat)
    (hps : ∀ p ∈ ps, p ≠ [] ∧ p.getLastD 0 < end_offset) :
    consumeLoop tp poll_timeout start_offset end_offset last_offset acc
        (ps ++ [] :: rest) =
      ConsumeOutcome.staleConsumerError tp start_offset end_offset
        (lastPolledOffset last_offset ps) poll_timeout := by
  induction ps generalizing last_offset acc with
  | nil => simp [consumeLoop, lastPolledOffset]
  | cons p ps ih =>
      obtain ⟨hne, hlt⟩ := hps p (by simp)
      have hlen : ¬(p.length = 0) := by simpa using hne
      have hgl : p.getLastD last_offset = p.getLastD 0 := by
        cases p with
        | nil => exact absurd rfl hne
        | cons a as => rfl
      rw [List.cons_append]
      unfold consumeLoop
      rw [if_neg hlen, if_neg (by rw [hgl]; omega)]
      rw [show lastPolledOffset last_offset (p :: ps) =
        lastPolledOffset (p.getLastD last_offset) ps from rfl]
      exact ih (p.getLastD last_offset) (acc ++ p) (fun q hq => hps q (by simp [hq]))

/-! ## Claims C8-C9 -/

/-- C8: `BackupVersion.identify` inspects only the first 4 bytes: equal to
the V3 marker gives V3, equal to the V2 marker gives V2, and every other
case — including files shorter than 4 bytes — gives V1; hence the first 4
bytes uniquely determine the identified format.  The markers are any two
distinct 4-byte strings, as the spec requires. -/
theorem c8_identify_first_four_bytes (v3_marker v2_marker : List Nat)
    (h3 : v3_marker.length = 4) (h2 : v2_marker.length = 4)
    (hmarkers : v3_marker ≠ v2_marker) :
    (∀ f g : List Nat, f.take 4 = g.take 4 →
      BackupVersion.identify v3_marker v2_marker f =
        BackupVersion.identify v3_marker v2_marker g) ∧
    (∀ f : List Nat,
      BackupVersion.identify v3_marker v2_marker f = BackupVersion.V3 ↔
        f.take 4 = v3_marker) ∧
    (∀ f : List Nat,
      BackupVersion.identify v3_marker v2_marker f = BackupVersion.V2 ↔
        f.take 4 = v2_marker) ∧
    (∀ f : List Nat, f.take 4 ≠ v3_marker → f.take 4 ≠ v2_marker →
      BackupVersion.identify v3_marker v2_marker f = BackupVersion.V1) ∧
    (∀ f : List Nat, f.length < 4 →
      BackupVersion.identify v3_marker v2_marker f = BackupVersion.V1) := by
  refine ⟨?_, ?_, ?_, ?_, ?_⟩
  · intro f g hfg
    unfold BackupVersion.identify
    rw [hfg]
  · intro f
    unfold BackupVersion.identify
    by_cases hv3 : f.take 4 = v3_marker
    · simp [hv3]
    · by_cases hv2 : f.take 4 = v2_marker <;> simp [hv3, hv2]
  · intro f
    unfold BackupVersion.identify
    have hne2 : ¬(v2_marker = v3_marker) := fun he => hmarkers he.symm
    by_cases hv3 : f.take 4 = v3_marker
    · constructor
      · intro h
        rw [if_pos hv3] at h
        exact absurd h (by simp)
      · intro h
        exact absurd (hv3.symm.trans h) hmarkers
    · by_cases hv2 : f.take 4 = v2_marker <;> simp [hv3, hv2, hne2]
  · intro f h1 h2
    simp [BackupVersion.identify, h1, h2]
  · intro f hf
    have hlen : (f.take 4).length = f.length := by
      rw [List.length_take]
      omega
    have hne3 : f.take 4 ≠ v3_marker := by
      intro he
      rw [he, h3] at hlen
      omega
    have hne2 : f.take 4 ≠ v2_marker := by
      intro he
      rw [he, h2] at hlen
      omega
    simp [BackupVersion.identify, hne3, hne2]

/-- C8 at concrete inputs: a file starting with the V2 marker, and a 2-byte
file. -/
theorem c8_identify_witness :
    BackupVersion.identify [118, 51, 190, 175] [47, 86, 50, 10]
      [47, 86, 50, 10, 99] = BackupVersion.V2 ∧
    BackupVersion.identify [118, 51, 190, 175] [47, 86, 50, 10]
      [1, 2] = BackupVersion.V1 := by
  have h := c8_identify_first_four_bytes [118, 51, 190, 175] [47, 86, 50, 10]
    rfl rfl (by decide)
  exact ⟨(h.2.2.1 _).mpr (by decide), h.2.2.2.2 _ (by decide)⟩

/-- C9: while the last consumed offset has not reached the end offset (the
high watermark minus one), a poll that returns zero records raises
`StaleConsumerError` carrying the topic-partition, the start offset, the end
offset, the offset of the last consumed record, and the poll timeout. -/
theorem c9_stale_consumer (tp : TopicPartition) (poll_timeout : Nat)
    (start_offset hw : Nat) (ps rest : List (List Nat))
    (hstart : start_offset < hw)
    (hps : ∀ p ∈ ps, p ≠ [] ∧ p.getLastD 0 < hw - 1) :
    consume_records tp poll_timeout start_offset hw (ps ++ [] :: rest) =
      ConsumeOutcome.staleConsumerError tp start_offset (hw - 1)
        (lastPolledOffset start_offset ps) poll_timeout := by
  unfold consume_records
  rw [if_neg (by omega)]
  exact consumeLoop_stale tp poll_timeout start_offset (hw - 1) ps rest
    start_offset [] hps

/-- C9 at the spec's concrete scenario: start offset 0, high watermark 10,
one poll of 5 records (offsets 0..4) and then an empty poll — the error
carries offsets (0, 9, 4). -/
theorem c9_stale_consumer_witness :
    consume_records { topic := "t", partition := 0 } 60000 0 10
      [[0, 1, 2, 3, 4], []] =
      ConsumeOutcome.staleConsumerError { topic := "t", partition := 0 }
        0 9 4 60000 := by
  have h := c9_stale_consumer { topic := "t", partition := 0 } 60000 0 10
    [[0, 1, 2, 3, 4]] [] (by omega)
    (by
      intro p hp
      simp only [List.mem_singleton] at hp
      subst hp
      exact ⟨by decide, by decide⟩)
  have h2 : ([[0, 1, 2, 3, 4]] ++ [] :: ([] : List (List Nat))) =
      [[0, 1, 2, 3, 4], []] := rfl
  have h3 : lastPolledOffset 0 [[0, 1, 2, 3, 4]] = 4 := rfl
  rw [h2, h3] at h
  exact h

/-! ## ACL authorization (`auth.py`) -/

/-- Embedding of `Operation` (auth.py lines 25-28). -/
inductive Operation where
  | Read
  | Write
deriving DecidableEq

/-- Embedding of `User` (auth.py lines 54-62); only `username` matters to authorization,
the credential fields are carried as plain strings. -/
structure User where
  username : String
  algorithm : String
  salt : String
  password_hash : String

/-- Embedding of `ACLEntry` (auth.py lines 65-69); the compiled regex is embedded as its
matching function `resource : String → Bool`. -/
structure ACLEntry where
  username : String
  operation : Operation
  resource : String → Bool

/-- The inner `check_operation` of `HTTPAuthorizer.check_authorization`
(auth.py lines 140-145). -/
def check_operation (operation : Operation) (aclentry : ACLEntry) : Bool :=
  if operation = Operation.Read then true
  else if aclentry.operation = Operation.Write then true
  else false

/-- The inner `check_resource` (auth.py lines 147-148). -/
def check_resource (resource : String) (aclentry : ACLEntry) : Bool :=
  aclentry.resource resource

/-- Embedding of `HTTPAuthorizer.check_authorization` (auth.py lines 136-157) over the
loaded `permissions` list. -/
def check_authorization (permissions : List ACLEntry) (user : Option User)
    (operation : Operation) (resource : String) : Bool :=
  match user with
  | none => false
  | some u =>
      permissions.any (fun aclentry =>
        aclentry.username = u.username && check_operation operation aclentry &&
          check_resource resource aclentry)

/-- C10: `check_authorization` returns false for a missing user; for a
present user it returns true iff some ACL entry has the user's username,
authorizes the operation (the requested operation is Read, or the entry's
operation is Write), and its resource pattern matches the resource — so a
Write entry authorizes both Read and Write, while a Read entry never
authorizes Write. -/
theorem c10_check_authorization (permissions : List ACLEntry) (u : User)
    (operation : Operation) (resource : String) :
    check_authorization permissions none operation resource = false ∧
    (check_authorization permissions (some u) operation resource = true ↔
      ∃ e ∈ permissions, e.username = u.username ∧
        (operation = Operation.Read ∨ e.operation = Operation.Write) ∧
        e.resource resource = true) := by
  refine ⟨rfl, ?_⟩
  simp only [check_authorization, List.any_eq_true, Bool.and_eq_true,
    decide_eq_true_eq, check_resource]
  constructor
  · rintro ⟨e, he, ⟨hu, hop⟩, hres⟩
    refine ⟨e, he, hu, ?_, hres⟩
    revert hop
    unfold check_operation
    split
    · intro _
      exact Or.inl (by assumption)
    · split
      · intro _
        exact Or.inr (by assumption)
      · intro h
        exact absurd h (by simp)
  · rintro ⟨e, he, hu, hop, hres⟩
    refine ⟨e, he, ⟨hu, ?_⟩, hres⟩
    unfold check_operation
    rcases hop with h | h <;> simp [h]
